import Mathlib

/-!
Verification of `demo-code-interpreter-v2.js`.

The script is a single linear pipeline: a module-level environment-variable
check, then `main()` with a `try` block (CSV pre-flight check, client
construction, four awaited remote calls, a response reporter), a `catch`
block that logs the error with heuristic hints, and a `finally` block that
attempts best-effort deletion of the conversation and the agent.

We model one run of the process as a function from a `World` (the values of
the two environment variables, the presence and content of the CSV file, and
the outcome of each remote call) to a trace of observable events together
with the process exit code.  `process.exit(1)` terminates the process
immediately: in particular a `process.exit` performed inside the `try` block
does not run the `finally` block, which the model reflects.

Console lines whose exact text matters to a claim are carried as structured
events (`errorOccurred`, `cleanupStart`, the pre-flight error lines); all
other console output is carried verbatim as `out`/`err` events.
-/

namespace DemoV2

/-- JS `c.repeat n` for a one-character string, used for the banner and
separator lines (`"=".repeat(60)`, `"─".repeat(60)`, `"─".repeat(50)`). -/
def repChar (c : Char) (n : Nat) : String :=
  String.mk (List.replicate n c)

/-- `"=".repeat(60)`, line 40/43. -/
def sep60 : String := repChar '=' 60

/-- `"─".repeat(60)`, used throughout. -/
def dash60 : String := repChar '─' 60

/-- `"─".repeat(50)`, used around the printed Python code (lines 181/183). -/
def dash50 : String := repChar '─' 50

/-- JS truthiness of a value that is either a string or absent
(`undefined`): absent and the empty string are falsy, every other string is
truthy.  This is the semantics of `!v` / `if (v)` / `v || d` on such a
value. -/
def truthyStr : Option String → Bool
  | none => false
  | some s => !(s == "")

/-- Template-literal interpolation of a possibly-absent string:
`${undefined}` renders as `"undefined"`. -/
def jsShow : Option String → String
  | none => "undefined"
  | some s => s

/-- Template-literal interpolation of a possibly-absent integer field. -/
def jsShowInt : Option Int → String
  | none => "undefined"
  | some n => toString n

/-- JS `v || "N/A"` on a possibly-absent string (lines 176-177). -/
def orNA (v : Option String) : String :=
  if truthyStr v then jsShow v else "N/A"

/-- JS `s.includes(pat)` (substring test, lines 209-215): true when `pat` is
empty or occurs in `s`. -/
def strIncludes (s pat : String) : Bool :=
  pat == "" || (s.splitOn pat).length != 1

/-- Handle returned by `project.agents.createVersion` (line 87); the fields
read by the script are `id`, `name` and `version`. -/
structure Agent where
  id : Option String
  name : Option String
  version : Option String
  deriving DecidableEq, Repr

/-- Handle returned by `openAIClient.conversations.create()` (line 107); the
script reads only `id`. -/
structure Conversation where
  id : Option String
  deriving DecidableEq, Repr

/-- One element of `response.output`; the script reads `type`,
`container_id`, `id` and `code` (lines 170-184).  Absent fields are
`none`. -/
structure OutputItem where
  type : Option String
  container_id : Option String
  id : Option String
  code : Option String
  deriving DecidableEq, Repr

/-- `response.usage` (lines 198-201). -/
structure Usage where
  input_tokens : Option Int
  output_tokens : Option Int
  deriving DecidableEq, Repr

/-- The JS value found in `response.output`.  The guard on line 167 is
`response.output && Array.isArray(response.output)`, so a faithful model
must distinguish an array from other values: absent (`undefined`), `null`,
a string (which has a `length` property), a number, and a plain
length-less object. -/
inductive OutputVal where
  | undef
  | null
  | arr (items : List OutputItem)
  | str (s : String)
  | num (n : Int)
  | obj
  deriving DecidableEq, Repr

/-- `response.output?.length || 0` (line 196): optional chaining yields
`undefined` on an absent/null output (then `|| 0` gives `0`), the length of
an array or string, and `undefined` (hence `0`) on values without a
`length` property. -/
def jsLength : OutputVal → Nat
  | .arr items => items.length
  | .str s => s.length
  | _ => 0

/-- The response object returned by `openAIClient.responses.create`
(line 138); the script reads `id`, `model`, `output_text`, `output` and
`usage`. -/
structure Response where
  id : Option String
  model : Option String
  output_text : Option String
  output : OutputVal
  usage : Option Usage
  deriving DecidableEq, Repr

/-- Line 182: `item.code.split('\n').map(line => "  " + line).join('\n')` —
the executed code, each line indented by two spaces, printed as one console
line. -/
def indentCode (c : String) : String :=
  String.intercalate "\n" ((c.splitOn "\n").map (fun l => "  " ++ l))

/-- The body of the `for (const item of response.output)` loop
(lines 170-186).  Result: console lines produced, paired with `some msg`
when the body would throw (it never does: the only unguarded member call,
`item.code.split`, sits under the truthiness guard `if (item.code)`). -/
def reportItem (it : OutputItem) : List String × Option String :=
  let l0 := ["Output type: " ++ jsShow it.type]
  if it.type = some "code_interpreter_call" then
    let l1 := l0 ++ ["\n✓ CODE INTERPRETER WAS USED!",
                     "  Container ID: " ++ orNA it.container_id,
                     "  Code Interpreter ID: " ++ orNA it.id]
    if truthyStr it.code then
      match it.code with
      | some c =>
          (l1 ++ ["\n  Python Code Executed:", "  " ++ dash50, indentCode c,
                  "  " ++ dash50], none)
      | none =>
          (l1 ++ ["\n  Python Code Executed:", "  " ++ dash50],
           some "TypeError: Cannot read properties of undefined")
    else (l1, none)
  else (l0, none)

/-- The whole loop of lines 170-186: lines printed in order; a thrown
exception aborts the rest of the loop. -/
def reportItems : List OutputItem → List String × Option String
  | [] => ([], none)
  | it :: rest =>
    match reportItem it with
    | (ls, some e) => (ls, some e)
    | (ls, none) =>
      match reportItems rest with
      | (ls2, e2) => (ls ++ ls2, e2)

/-- Lines 167-191: the per-item analysis block.  It runs only when
`response.output` is a (truthy) array; afterwards, if no item had type
`code_interpreter_call`, the "not used" line is printed. -/
def analysisBlock (r : Response) : List String × Option String :=
  match r.output with
  | .arr items =>
    match reportItems items with
    | (ls, some e) => (ls, some e)
    | (ls, none) =>
      (ls ++ (if items.any (fun it => it.type = some "code_interpreter_call")
              then []
              else ["\nNo code_interpreter_call found in output."]), none)
  | _ => ([], none)

/-- Lines 156-204: everything printed between a successful
`responses.create` and the end of the `try` block — the agent response, the
response analysis, and the response-structure summary (with the
usage block guarded by `if (response.usage)`). -/
def displayAndAnalyze (r : Response) : List String × Option String :=
  let pre := ["AGENT RESPONSE:", dash60, jsShow r.output_text, dash60,
              "\nRESPONSE ANALYSIS (Proof of Code Interpreter):", dash60]
  match analysisBlock r with
  | (ls, some e) => (pre ++ ls, some e)
  | (ls, none) =>
    (pre ++ ls ++
     ["\nFull Response Structure:",
      " - Response ID: " ++ jsShow r.id,
      " - Model: " ++ jsShow r.model,
      " - Output items: " ++ toString (jsLength r.output)] ++
     (match r.usage with
      | none => []
      | some u => [" - Input tokens: " ++ jsShowInt u.input_tokens,
                   " - Output tokens: " ++ jsShowInt u.output_tokens]) ++
     ["\n✓ Analysis completed!", dash60], none)

/-- Lines 113-125: the composite user prompt with the CSV embedded
verbatim. -/
def userPrompt (csv : String) : String :=
  "Here is a CSV file with sales data:\n\n```csv\n" ++ csv ++
  "\n```\n\nPlease analyze this data and:\n1. Calculate the total annual sales, expenses, and profit\n2. Identify the month with the highest profit\n3. Calculate the average monthly profit margin (profit/sales * 100)\n4. Provide a brief summary of the business performance\n\nUse Python code to perform these calculations."

deriving instance DecidableEq for Except

/-- One run of the process, as seen from outside: the values of the two
environment variables (absent = `none`), whether `./sales_data.csv` exists
and its content, and the outcome (`ok` result or thrown error message) of
each awaited SDK call. -/
structure World where
  endpointVar : Option String
  modelVar : Option String
  csvExists : Bool
  csvContent : String
  getOpenAIClientResult : Except String Unit
  createAgentResult : Except String Agent
  createConversationResult : Except String Conversation
  createResponseResult : Except String Response
  deleteConversationResult : Except String Unit
  deleteAgentResult : Except String Unit
  deriving DecidableEq, Repr

/-- Observable events of a run: console output and the side-effecting
calls, in program order.  `errorOccurred msg` is the catch-block line
`console.error("\nError occurred:", msg)` (line 207); `cleanupStart` is the
finally-block line `console.log("\nCleaning up resources...")`
(line 223). -/
inductive Event where
  | out (s : String)
  | err (s : String)
  | exitCall (code : Nat)
  | credentialCreated
  | clientConstructed
  | getClientCall
  | createAgentCall
  | agentCreated (a : Agent)
  | createConversationCall
  | conversationCreated (c : Conversation)
  | dispatch (conversationId : Option String) (agentName : Option String) (input : String)
  | errorOccurred (msg : String)
  | cleanupStart
  | deleteConversationCall (conversationId : Option String)
  | deleteAgentCall (name : Option String) (version : Option String)
  deriving DecidableEq, Repr

/-- State of `main`'s local variables when control leaves the `try` block,
plus the events it produced and whether `process.exit` fired inside it. -/
structure TryResult where
  events : List Event
  exited : Bool
  projectSet : Bool
  client : Bool
  agent : Option Agent
  conv : Option Conversation
  err : Option String
  deriving DecidableEq, Repr

/-- Lines 40-45: the opening banner. -/
def bannerEvents (endpointVar modelVar : Option String) : List Event :=
  [.out sep60,
   .out "AZURE AI FOUNDRY - Code Interpreter Demo v2 (JavaScript)",
   .out "Using Registered Agent with Code Interpreter Tool",
   .out sep60,
   .out ("\nEndpoint: " ++ jsShow endpointVar),
   .out ("Model Deployment: " ++ jsShow modelVar ++ "\n")]

/-- Lines 58-61: the CSV pre-flight failure — two error lines and
`process.exit(1)`. -/
def csvFailEvents : List Event :=
  [.err "Error: File not found: ./sales_data.csv",
   .err "Please ensure sales_data.csv exists in the current directory.",
   .exitCall 1]

/-- Lines 63-80: events from the CSV-found message up to and including the
`getOpenAIClient` call. -/
def phase1Events : List Event :=
  [.out "✓ Found data file: ./sales_data.csv\n",
   .out "Initialising Azure AI Projects client...",
   .credentialCreated, .clientConstructed,
   .out "✓ Client initialised.\n",
   .out "Getting OpenAI client...", .getClientCall]

/-- Lines 81-98: events from the client-ready message up to and including
the `agents.createVersion` call. -/
def phase2Events : List Event :=
  [.out "✓ OpenAI client ready.\n",
   .out "Creating registered AI Agent with Code Interpreter...",
   .createAgentCall]

/-- Lines 99-107: the agent log lines up to and including the
`conversations.create()` call. -/
def phase3Events (a : Agent) : List Event :=
  [.agentCreated a,
   .out (" - Agent ID: " ++ jsShow a.id),
   .out (" - Agent Name: " ++ jsShow a.name),
   .out (" - Agent Version: " ++ jsShow a.version ++ "\n"),
   .out "Creating conversation thread...",
   .createConversationCall]

/-- Lines 108-151: the conversation log lines, user-message banner, and the
`responses.create` call referencing `conversation.id` and `agent.name`. -/
def phase4Events (a : Agent) (c : Conversation) (csv : String) : List Event :=
  [.conversationCreated c,
   .out ("✓ Conversation created (ID: " ++ jsShow c.id ++ ")\n"),
   .out dash60, .out "USER MESSAGE:", .out dash60,
   .out "Analyzing sales_data.csv with Code Interpreter...",
   .out (dash60 ++ "\n"),
   .out "Running registered Agent via Responses API...\n",
   .dispatch c.id a.name (userPrompt csv)]

/-- The `try` block of `main` (lines 52-204). -/
def tryBlock (w : World) : TryResult :=
  if !w.csvExists then
    { events := csvFailEvents,
      exited := true, projectSet := false, client := false,
      agent := none, conv := none, err := none }
  else
    match w.getOpenAIClientResult with
    | .error msg =>
      { events := phase1Events, exited := false, projectSet := true,
        client := false, agent := none, conv := none, err := some msg }
    | .ok _ =>
      match w.createAgentResult with
      | .error msg =>
        { events := phase1Events ++ phase2Events, exited := false,
          projectSet := true, client := true,
          agent := none, conv := none, err := some msg }
      | .ok a =>
        match w.createConversationResult with
        | .error msg =>
          { events := phase1Events ++ phase2Events ++ phase3Events a,
            exited := false, projectSet := true, client := true,
            agent := some a, conv := none, err := some msg }
        | .ok c =>
          match w.createResponseResult with
          | .error msg =>
            { events := phase1Events ++ phase2Events ++ phase3Events a ++
                        phase4Events a c w.csvContent,
              exited := false, projectSet := true, client := true,
              agent := some a, conv := some c, err := some msg }
          | .ok r =>
            { events := phase1Events ++ phase2Events ++ phase3Events a ++
                        phase4Events a c w.csvContent ++
                        ((displayAndAnalyze r).1.map .out),
              exited := false, projectSet := true, client := true,
              agent := some a, conv := some c, err := (displayAndAnalyze r).2 }

/-- Lines 209-217: the heuristic tips printed by the catch block, keyed by
substring match on the error message. -/
def hintLines (msg : String) : List String :=
  (if strIncludes msg "DefaultAzureCredential" then
     ["\nTip: Make sure you\x27re logged in with \x27az login\x27"] else []) ++
  (if strIncludes msg "404" || strIncludes msg "not found" then
     ["\nTip: Check that your AZURE_FOUNDRY_PROJECT_ENDPOINT is correct"] else []) ++
  (if strIncludes msg "createVersion" then
     ["\nTip: Agent creation failed. Check your model deployment name."] else [])

/-- The `catch` block of `main` (lines 206-217). -/
def catchBlock (msg : String) : List Event :=
  .errorOccurred msg :: (hintLines msg).map .out

/-- The `finally` block of `main` (lines 219-242): each deletion is guarded
by truthiness of the relevant handles and wrapped in its own
`try`/`catch`. -/
def finallyBlock (w : World) (projectSet client : Bool)
    (agent : Option Agent) (conv : Option Conversation) : List Event :=
  [.cleanupStart] ++
  (match conv, client with
   | some c, true =>
     .deleteConversationCall c.id ::
     (match w.deleteConversationResult with
      | .ok _ => [.out "✓ Conversation deleted."]
      | .error m => [.out ("Note: Could not delete conversation: " ++ m)])
   | _, _ => []) ++
  (match agent, projectSet with
   | some a, true =>
     .deleteAgentCall a.name a.version ::
     (match w.deleteAgentResult with
      | .ok _ => [.out ("✓ Agent deleted (" ++ jsShow a.name ++ " v" ++
                        jsShow a.version ++ ").")]
      | .error m => [.out ("Note: Could not delete agent: " ++ m)])
   | _, _ => [])

/-- `main()` (lines 39-243): banner, then try/catch/finally.  A
`process.exit` inside the `try` block terminates the process at once — the
`catch` and `finally` blocks do not run. -/
def mainRun (w : World) : List Event × Nat :=
  let b := bannerEvents w.endpointVar w.modelVar
  let t := tryBlock w
  if t.exited then (b ++ t.events, 1)
  else
    let ce := match t.err with
      | none => []
      | some e => catchBlock e
    (b ++ t.events ++ ce ++ finallyBlock w t.projectSet t.client t.agent t.conv, 0)

/-- Lines 33-37: the module-level environment check. -/
def configFailEvents : List Event :=
  [.err "Error: Environment variables not set properly!",
   .err "Please set AZURE_FOUNDRY_PROJECT_ENDPOINT and AZURE_FOUNDRY_GPT_MODEL",
   .exitCall 1]

/-- One full run of the process: the environment check at module load, then
`main().catch(console.error)`.  `main` never rejects (every failure is
swallowed by its catch/finally), so the trailing `.catch` contributes
nothing and the exit code is 0 whenever no `process.exit(1)` fired. -/
def run (w : World) : List Event × Nat :=
  if !(truthyStr w.endpointVar) || !(truthyStr w.modelVar) then
    (configFailEvents, 1)
  else mainRun w

/-- Recognizer for the finally-block entry line (line 223). -/
def isCleanupStart : Event → Bool
  | .cleanupStart => true
  | _ => false

/-- Recognizer for the catch-block error line (line 207). -/
def isErrorOccurredEv : Event → Bool
  | .errorOccurred _ => true
  | _ => false

/-- Recognizer for `process.exit` calls. -/
def isExitEv : Event → Bool
  | .exitCall _ => true
  | _ => false

/-- Recognizer for the `responses.create` call (line 138). -/
def isDispatchEv : Event → Bool
  | .dispatch _ _ _ => true
  | _ => false

/-- Recognizer for `conversations.delete` (line 227). -/
def isDeleteConvEv : Event → Bool
  | .deleteConversationCall _ => true
  | _ => false

/-- Recognizer for `agents.deleteVersion` (line 236). -/
def isDeleteAgentEv : Event → Bool
  | .deleteAgentCall _ _ => true
  | _ => false

/-- Remote operations (every awaited SDK call). -/
def isNetworkCall : Event → Bool
  | .getClientCall => true
  | .createAgentCall => true
  | .createConversationCall => true
  | .dispatch _ _ _ => true
  | .deleteConversationCall _ => true
  | .deleteAgentCall _ _ => true
  | _ => false

/-- Local client construction (lines 72-73): `new DefaultAzureCredential()`
and `new AIProjectClient(...)`. -/
def isClientInit : Event → Bool
  | .credentialCreated => true
  | .clientConstructed => true
  | _ => false

/-- Number of executions of the cleanup phase in a trace. -/
def cleanupCount (tr : List Event) : Nat :=
  tr.countP (fun e => isCleanupStart e)

/-- Number of catch-block error logs in a trace. -/
def errorOccurredCount (tr : List Event) : Nat :=
  tr.countP (fun e => isErrorOccurredEv e)

/-- The prefix of a trace strictly before the first `responses.create`
call. -/
def beforeFirstDispatch (tr : List Event) : List Event :=
  tr.takeWhile (fun e => !(isDispatchEv e))

/-- The post-`try` state of `main`'s locals, bundled for comparison. -/
def stateOf (t : TryResult) : Bool × Bool × Bool × Option Agent × Option Conversation × Option String :=
  (t.exited, t.projectSet, t.client, t.agent, t.conv, t.err)

/-- A plausible agent handle, for concrete runs. -/
def sampleAgent : Agent :=
  { id := some "/agents/DataAnalystAgent/versions/1",
    name := some "DataAnalystAgent", version := some "1" }

/-- A plausible conversation handle, for concrete runs. -/
def sampleConversation : Conversation := { id := some "conv_001" }

/-- A code-interpreter output item with all fields populated. -/
def sampleItem : OutputItem :=
  { type := some "code_interpreter_call", container_id := some "cntr_001",
    id := some "ci_001", code := some "import pandas as pd\nprint(1)" }

/-- A fully-populated successful response. -/
def sampleResponse : Response :=
  { id := some "resp_001", model := some "gpt-4.1-mini",
    output_text := some "Analysis complete.",
    output := OutputVal.arr [sampleItem],
    usage := some { input_tokens := some 800, output_tokens := some 300 } }

/-- A world in which every pre-flight check passes and every remote call
succeeds. -/
def wOk : World :=
  { endpointVar := some "https://res.services.ai.azure.com/api/projects/p1",
    modelVar := some "gpt-4.1-mini",
    csvExists := true,
    csvContent := "Month,Sales,Expenses,Profit\nJan,10000,6500,3500",
    getOpenAIClientResult := Except.ok (),
    createAgentResult := Except.ok sampleAgent,
    createConversationResult := Except.ok sampleConversation,
    createResponseResult := Except.ok sampleResponse,
    deleteConversationResult := Except.ok (),
    deleteAgentResult := Except.ok () }

/-- Same as `wOk` but the CSV data file is absent. -/
def wNoCsv : World := { wOk with csvExists := false }

/-- Same as `wOk` but both environment variables are absent. -/
def wNoEnv : World := { wOk with endpointVar := none, modelVar := none }

/-- Same as `wOk` but the endpoint variable is set to the empty string. -/
def wEmptyEnv : World := { wOk with endpointVar := some "" }

/-- Same as `wOk` but both cleanup deletions fail. -/
def wDelFail : World :=
  { wOk with deleteConversationResult := Except.error "409 Conflict",
             deleteAgentResult := Except.error "500 Server Error" }

/-- A response whose `output` field is a (non-array) two-character
string. -/
def rStr : Response :=
  { id := none, model := none, output_text := none,
    output := OutputVal.str "ab", usage := none }

/-- A code-interpreter output item with every other field absent. -/
def bareItem : OutputItem :=
  { type := some "code_interpreter_call", container_id := none,
    id := none, code := none }

/-- A response with every field absent except an `output` array holding one
item with every field absent. -/
def rBare : Response :=
  { id := none, model := none, output_text := none,
    output := OutputVal.arr [bareItem], usage := none }

/-! ### Helper lemmas -/

theorem reportItem_snd (it : OutputItem) : (reportItem it).2 = none := by
  unfold reportItem
  cases hc : it.code <;>
    by_cases ht : it.type = some "code_interpreter_call" <;>
      simp [truthyStr, hc, ht] <;>
      split <;> rfl

theorem reportItems_eq (items : List OutputItem) :
    reportItems items
      = ((items.map (fun it => (reportItem it).1)).flatten, none) := by
  induction items with
  | nil => rfl
  | cons it rest ih =>
    have h : reportItem it = ((reportItem it).1, none) := by
      conv_lhs => rw [← Prod.mk.eta (p := reportItem it)]
      rw [reportItem_snd]
    rw [reportItems, h, ih]
    simp

theorem analysisBlock_arr (r : Response) (items : List OutputItem)
    (h : r.output = OutputVal.arr items) :
    analysisBlock r
      = ((items.map (fun it => (reportItem it).1)).flatten ++
          (if items.any (fun it => it.type = some "code_interpreter_call")
           then []
           else ["\nNo code_interpreter_call found in output."]), none) := by
  simp only [analysisBlock, h, reportItems_eq]

theorem analysisBlock_not_arr (r : Response)
    (h : ∀ items, r.output ≠ OutputVal.arr items) :
    analysisBlock r = ([], none) := by
  unfold analysisBlock
  cases hv : r.output <;> first
    | rfl
    | exact absurd hv (h _)

theorem analysisBlock_snd (r : Response) : (analysisBlock r).2 = none := by
  cases hv : r.output <;> first
    | rw [analysisBlock_arr r _ hv]
    | · rw [analysisBlock_not_arr r]
        intro items hi
        rw [hv] at hi
        exact OutputVal.noConfusion hi

theorem displayAndAnalyze_eq (r : Response) :
    displayAndAnalyze r
      = (["AGENT RESPONSE:", dash60, jsShow r.output_text, dash60,
          "\nRESPONSE ANALYSIS (Proof of Code Interpreter):", dash60] ++
         (analysisBlock r).1 ++
         (["\nFull Response Structure:",
           " - Response ID: " ++ jsShow r.id,
           " - Model: " ++ jsShow r.model,
           " - Output items: " ++ toString (jsLength r.output)] ++
          (match r.usage with
           | none => []
           | some u => [" - Input tokens: " ++ jsShowInt u.input_tokens,
                        " - Output tokens: " ++ jsShowInt u.output_tokens]) ++
          ["\n✓ Analysis completed!", dash60]), none) := by
  have h : analysisBlock r = ((analysisBlock r).1, none) := by
    conv_lhs => rw [← Prod.mk.eta (p := analysisBlock r)]
    rw [analysisBlock_snd]
  unfold displayAndAnalyze
  rw [h]
  simp

theorem displayAndAnalyze_snd (r : Response) : (displayAndAnalyze r).2 = none := by
  rw [displayAndAnalyze_eq]

theorem countP_map_out (p : Event → Bool) (hp : ∀ s, p (Event.out s) = false)
    (ls : List String) : (ls.map Event.out).countP p = 0 := by
  induction ls with
  | nil => rfl
  | cons s t ih => simp [List.countP_cons, hp, ih]

theorem not_mem_map_out (e : Event) (he : ∀ s, e ≠ Event.out s)
    (ls : List String) : e ∉ ls.map Event.out := by
  intro h
  obtain ⟨s, _, hs⟩ := List.mem_map.mp h
  exact he s hs.symm

theorem tryBlock_exited (w : World) : (tryBlock w).exited = !w.csvExists := by
  unfold tryBlock
  cases w.csvExists <;>
    cases w.getOpenAIClientResult <;>
      cases w.createAgentResult <;>
        cases w.createConversationResult <;>
          cases w.createResponseResult <;> rfl

theorem run_config_fail (w : World)
    (h : (!(truthyStr w.endpointVar) || !(truthyStr w.modelVar)) = true) :
    run w = (configFailEvents, 1) := by
  unfold run
  rw [h]
  rfl

theorem run_csv_fail (w : World)
    (he : truthyStr w.endpointVar = true) (hm : truthyStr w.modelVar = true)
    (hc : w.csvExists = false) :
    run w = (bannerEvents w.endpointVar w.modelVar ++ csvFailEvents, 1) := by
  unfold run mainRun
  rw [he, hm]
  have ht : tryBlock w
      = { events := csvFailEvents, exited := true, projectSet := false,
          client := false, agent := none, conv := none, err := none } := by
    unfold tryBlock
    rw [hc]
    rfl
  rw [ht]
  rfl

theorem mem_banner (e : Event) (ep mv : Option String)
    (h : e ∈ bannerEvents ep mv) : ∃ s, e = Event.out s := by
  simp [bannerEvents] at h
  rcases h with h | h | h | h | h | h <;> exact ⟨_, h⟩

theorem mem_csvFail (e : Event) (h : e ∈ csvFailEvents) :
    e = Event.err "Error: File not found: ./sales_data.csv"
    ∨ e = Event.err "Please ensure sales_data.csv exists in the current directory."
    ∨ e = Event.exitCall 1 := by
  simp [csvFailEvents] at h
  tauto

theorem mem_phase1 (e : Event) (h : e ∈ phase1Events) :
    (∃ s, e = Event.out s) ∨ e = Event.credentialCreated
    ∨ e = Event.clientConstructed ∨ e = Event.getClientCall := by
  simp [phase1Events] at h
  rcases h with h | h | h | h | h | h | h <;> first
    | exact Or.inl ⟨_, h⟩
    | tauto

theorem mem_phase2 (e : Event) (h : e ∈ phase2Events) :
    (∃ s, e = Event.out s) ∨ e = Event.createAgentCall := by
  simp [phase2Events] at h
  rcases h with h | h | h <;> first
    | exact Or.inl ⟨_, h⟩
    | tauto

theorem mem_phase3 (e : Event) (a : Agent) (h : e ∈ phase3Events a) :
    (∃ s, e = Event.out s) ∨ e = Event.agentCreated a
    ∨ e = Event.createConversationCall := by
  simp [phase3Events] at h
  rcases h with h | h | h | h | h | h <;> first
    | exact Or.inl ⟨_, h⟩
    | tauto

theorem mem_phase4 (e : Event) (a : Agent) (c : Conversation) (csv : String)
    (h : e ∈ phase4Events a c csv) :
    (∃ s, e = Event.out s) ∨ e = Event.conversationCreated c
    ∨ e = Event.dispatch c.id a.name (userPrompt csv) := by
  simp [phase4Events] at h
  rcases h with h | h | h | h | h | h | h | h | h <;> first
    | exact Or.inl ⟨_, h⟩
    | tauto

theorem mem_catchBlock (e : Event) (msg : String) (h : e ∈ catchBlock msg) :
    e = Event.errorOccurred msg ∨ ∃ s, e = Event.out s := by
  rcases List.mem_cons.mp h with h1 | h2
  · exact Or.inl h1
  · obtain ⟨s, _, hs⟩ := List.mem_map.mp h2
    exact Or.inr ⟨s, hs.symm⟩

theorem mem_finallyBlock (e : Event) (w : World) (ps cl : Bool)
    (ag : Option Agent) (cv : Option Conversation)
    (h : e ∈ finallyBlock w ps cl ag cv) :
    e = Event.cleanupStart
    ∨ (∃ i, e = Event.deleteConversationCall i)
    ∨ (∃ n v, e = Event.deleteAgentCall n v)
    ∨ (∃ s, e = Event.out s) := by
  revert h
  unfold finallyBlock
  cases cv <;> cases cl <;> cases ag <;> cases ps <;>
    cases w.deleteConversationResult <;> cases w.deleteAgentResult <;>
      intro h <;> simp at h <;> (try casesm* _ ∨ _) <;> simp_all

theorem countP_banner_zero (p : Event → Bool) (hout : ∀ s, p (Event.out s) = false)
    (ep mv : Option String) : (bannerEvents ep mv).countP p = 0 := by
  simp [bannerEvents, List.countP_cons, hout]

theorem countP_tryBlock_ok (w : World) (hc : w.csvExists = true) (p : Event → Bool)
    (hout : ∀ s, p (Event.out s) = false)
    (hcred : p Event.credentialCreated = false)
    (hcons : p Event.clientConstructed = false)
    (hget : p Event.getClientCall = false)
    (hca : p Event.createAgentCall = false)
    (hac : ∀ a, p (Event.agentCreated a) = false)
    (hcc : p Event.createConversationCall = false)
    (hconv : ∀ c, p (Event.conversationCreated c) = false)
    (hd : ∀ ci an inp, p (Event.dispatch ci an inp) = false) :
    (tryBlock w).events.countP p = 0 := by
  unfold tryBlock
  rw [hc]
  cases w.getOpenAIClientResult <;>
    cases w.createAgentResult <;>
      cases w.createConversationResult <;>
        cases w.createResponseResult <;>
          simp [phase1Events, phase2Events, phase3Events, phase4Events,
                List.countP_append, List.countP_cons, hout, hcred, hcons, hget,
                hca, hac, hcc, hconv, hd, countP_map_out p hout]

theorem countP_catch_zero (p : Event → Bool)
    (herr : ∀ m, p (Event.errorOccurred m) = false)
    (hout : ∀ s, p (Event.out s) = false) (msg : String) :
    (catchBlock msg).countP p = 0 := by
  simp [catchBlock, List.countP_cons, herr, countP_map_out p hout]

theorem countP_finally_zero (p : Event → Bool)
    (hclean : p Event.cleanupStart = false)
    (hdc : ∀ i, p (Event.deleteConversationCall i) = false)
    (hda : ∀ n v, p (Event.deleteAgentCall n v) = false)
    (hout : ∀ s, p (Event.out s) = false)
    (w : World) (ps cl : Bool) (ag : Option Agent) (cv : Option Conversation) :
    (finallyBlock w ps cl ag cv).countP p = 0 := by
  unfold finallyBlock
  cases cv <;> cases cl <;> cases ag <;> cases ps <;>
    cases w.deleteConversationResult <;> cases w.deleteAgentResult <;>
      simp [List.countP_append, List.countP_cons, hclean, hdc, hda, hout]

theorem cleanupCount_append (l1 l2 : List Event) :
    cleanupCount (l1 ++ l2) = cleanupCount l1 + cleanupCount l2 := by
  simp [cleanupCount, List.countP_append]

theorem cleanupCount_finally (w : World) (ps cl : Bool) (ag : Option Agent)
    (cv : Option Conversation) :
    cleanupCount (finallyBlock w ps cl ag cv) = 1 := by
  unfold finallyBlock cleanupCount
  cases cv <;> cases cl <;> cases ag <;> cases ps <;>
    cases w.deleteConversationResult <;> cases w.deleteAgentResult <;>
      simp [List.countP_append, List.countP_cons, isCleanupStart]

theorem errorOccurredCount_append (l1 l2 : List Event) :
    errorOccurredCount (l1 ++ l2)
      = errorOccurredCount l1 + errorOccurredCount l2 := by
  simp [errorOccurredCount, List.countP_append]

theorem errorOccurredCount_catch (msg : String) :
    errorOccurredCount (catchBlock msg) = 1 := by
  simp [errorOccurredCount, catchBlock, List.countP_cons, isErrorOccurredEv,
        countP_map_out (fun e => isErrorOccurredEv e) (fun _ => rfl)]

theorem run_eq_pipeline (w : World)
    (he : truthyStr w.endpointVar = true) (hm : truthyStr w.modelVar = true)
    (hc : w.csvExists = true) :
    run w = (bannerEvents w.endpointVar w.modelVar ++ (tryBlock w).events ++
             (match (tryBlock w).err with
              | none => []
              | some e => catchBlock e) ++
             finallyBlock w (tryBlock w).projectSet (tryBlock w).client
               (tryBlock w).agent (tryBlock w).conv, 0) := by
  unfold run mainRun
  rw [he, hm]
  have hx : (tryBlock w).exited = false := by
    rw [tryBlock_exited, hc]
    rfl
  simp [hx]

/-! ### Claims -/

/-- Claim C1, counterexample: in a run where both environment variables are
set but the CSV file is missing, the pipeline fails (exit code 1) yet the
cleanup phase executes zero times — `process.exit(1)` on line 61 fires
inside the `try` block and terminates the process immediately, so the
`finally` block never runs.  This refutes "for every run of the program,
exactly one execution of the cleanup phase occurs after success or after
any failure". -/
theorem cleanup_skipped_when_csv_missing :
    (run wNoCsv).2 = 1 ∧ cleanupCount (run wNoCsv).1 = 0 :=
  ⟨rfl, rfl⟩

theorem cleanupCount_run_preflight (w : World)
    (he : truthyStr w.endpointVar = true) (hm : truthyStr w.modelVar = true)
    (hc : w.csvExists = true) :
    cleanupCount (run w).1 = 1 := by
  rw [run_eq_pipeline w he hm hc]
  have hb : List.countP (fun e => isCleanupStart e)
      (bannerEvents w.endpointVar w.modelVar) = 0 :=
    countP_banner_zero (fun e => isCleanupStart e) (fun _ => rfl) _ _
  have htr : List.countP (fun e => isCleanupStart e) (tryBlock w).events = 0 :=
    countP_tryBlock_ok w hc (fun e => isCleanupStart e) (fun _ => rfl) rfl rfl
      rfl rfl (fun _ => rfl) rfl (fun _ => rfl) (fun _ _ _ => rfl)
  have hfin : List.countP (fun e => isCleanupStart e)
      (finallyBlock w (tryBlock w).projectSet
        (tryBlock w).client (tryBlock w).agent (tryBlock w).conv) = 1 :=
    cleanupCount_finally w _ _ _ _
  cases herr : (tryBlock w).err with
  | none => simp [cleanupCount, List.countP_append, hb, htr, hfin]
  | some m =>
    have hcatch : List.countP (fun e => isCleanupStart e) (catchBlock m) = 0 :=
      countP_catch_zero (fun e => isCleanupStart e) (fun _ => rfl)
        (fun _ => rfl) m
    simp [cleanupCount, List.countP_append, hb, htr, hfin, hcatch]

/-- Claim C1 (amended): the cleanup phase executes exactly once in every
run that passes both pre-flight checks (environment variables set and
truthy, CSV file present), regardless of which remote calls succeed or
fail; in a run stopped by a pre-flight `process.exit(1)` (falsy
configuration, or missing CSV file) the cleanup phase does not execute at
all. -/
theorem cleanup_exactly_once_after_preflight (w : World) :
    (truthyStr w.endpointVar = true → truthyStr w.modelVar = true →
      w.csvExists = true → cleanupCount (run w).1 = 1)
    ∧ (((truthyStr w.endpointVar && truthyStr w.modelVar) = false
        ∨ w.csvExists = false) → cleanupCount (run w).1 = 0) := by
  constructor
  · exact fun he hm hc => cleanupCount_run_preflight w he hm hc
  · intro h
    by_cases henv : (!(truthyStr w.endpointVar) || !(truthyStr w.modelVar)) = true
    · rw [run_config_fail w henv]
      rfl
    · have hab : truthyStr w.endpointVar = true ∧ truthyStr w.modelVar = true := by
        revert henv
        cases truthyStr w.endpointVar <;> cases truthyStr w.modelVar <;> simp
      rcases h with h | h
      · rw [hab.1, hab.2] at h
        simp at h
      · rw [run_csv_fail w hab.1 hab.2 h]
        have hb := countP_banner_zero (fun e => isCleanupStart e) (fun _ => rfl)
          w.endpointVar w.modelVar
        have hcf : csvFailEvents.countP (fun e => isCleanupStart e) = 0 := rfl
        simp [cleanupCount, List.countP_append, hb, hcf]

/-- Witness for C1 (amended): the all-success world has exactly one cleanup
phase; the CSV-missing world has zero. -/
theorem cleanup_exactly_once_after_preflight_witness :
    truthyStr wOk.endpointVar = true ∧ wOk.csvExists = true
    ∧ cleanupCount (run wOk).1 = 1
    ∧ wNoCsv.csvExists = false ∧ cleanupCount (run wNoCsv).1 = 0 :=
  ⟨by decide, rfl,
   (cleanup_exactly_once_after_preflight wOk).1 (by decide) (by decide) rfl,
   rfl, (cleanup_exactly_once_after_preflight wNoCsv).2 (Or.inr rfl)⟩

/-- Claim C2: once the agent and the conversation both exist, the cleanup
phase attempts both deletions in every world — in particular regardless of
whether either deletion call fails — and neither deletion failure escapes
the cleanup phase: the run still terminates normally with exit code 0, and
a failed deletion is merely logged with a "Note:" line. -/
theorem cleanup_deletions_independent (w : World) (a : Agent) (c : Conversation)
    (he : truthyStr w.endpointVar = true) (hm : truthyStr w.modelVar = true)
    (hc : w.csvExists = true)
    (hg : w.getOpenAIClientResult = Except.ok ())
    (ha : w.createAgentResult = Except.ok a)
    (hv : w.createConversationResult = Except.ok c) :
    Event.deleteConversationCall c.id ∈ (run w).1
    ∧ Event.deleteAgentCall a.name a.version ∈ (run w).1
    ∧ (run w).2 = 0
    ∧ (∀ m, w.deleteConversationResult = Except.error m →
        Event.out ("Note: Could not delete conversation: " ++ m) ∈ (run w).1)
    ∧ (∀ m, w.deleteAgentResult = Except.error m →
        Event.out ("Note: Could not delete agent: " ++ m) ∈ (run w).1) := by
  have hfields : (tryBlock w).projectSet = true ∧ (tryBlock w).client = true
      ∧ (tryBlock w).agent = some a ∧ (tryBlock w).conv = some c := by
    cases hr : w.createResponseResult <;>
      simp [tryBlock, hc, hg, ha, hv, hr]
  obtain ⟨h1, h2, h3, h4⟩ := hfields
  rw [run_eq_pipeline w he hm hc, h1, h2, h3, h4]
  refine ⟨?_, ?_, rfl, ?_, ?_⟩
  · exact List.mem_append_right _ (by simp [finallyBlock])
  · exact List.mem_append_right _ (by simp [finallyBlock])
  · intro m hdm
    exact List.mem_append_right _ (by simp [finallyBlock, hdm])
  · intro m hdm
    exact List.mem_append_right _ (by simp [finallyBlock, hdm])

/-- Witness for C2 at a concrete world where both deletions fail: both
deletion calls still occur and the exit code is 0. -/
theorem cleanup_deletions_independent_witness :
    wDelFail.deleteConversationResult = Except.error "409 Conflict"
    ∧ wDelFail.deleteAgentResult = Except.error "500 Server Error"
    ∧ Event.deleteConversationCall sampleConversation.id ∈ (run wDelFail).1
    ∧ Event.deleteAgentCall sampleAgent.name sampleAgent.version ∈ (run wDelFail).1
    ∧ (run wDelFail).2 = 0 :=
  ⟨rfl, rfl,
   (cleanup_deletions_independent wDelFail sampleAgent sampleConversation
     (by decide) (by decide) rfl rfl rfl rfl).1,
   (cleanup_deletions_independent wDelFail sampleAgent sampleConversation
     (by decide) (by decide) rfl rfl rfl rfl).2.1,
   (cleanup_deletions_independent wDelFail sampleAgent sampleConversation
     (by decide) (by decide) rfl rfl rfl rfl).2.2.1⟩

/-- Claim C3: the exit code is 1 exactly when a pre-flight check fails
(environment configuration falsy, or CSV file missing).  In every other
run — whichever remote calls throw — the error is caught exactly once and
logged by the single catch block, no `process.exit` is performed, and the
process reaches normal termination (exit code 0) after one cleanup
phase. -/
theorem exit_code_semantics (w : World) :
    ((run w).2 = 1
      ↔ ((truthyStr w.endpointVar && truthyStr w.modelVar) = false
          ∨ w.csvExists = false))
    ∧ ((truthyStr w.endpointVar && truthyStr w.modelVar) = true →
        w.csvExists = true →
        (run w).2 = 0
        ∧ (run w).1.countP (fun e => isExitEv e) = 0
        ∧ cleanupCount (run w).1 = 1
        ∧ errorOccurredCount (run w).1 = ((tryBlock w).err).elim 0 (fun _ => 1)
        ∧ (∀ m, (tryBlock w).err = some m →
            Event.errorOccurred m ∈ (run w).1)) := by
  constructor
  · cases henv : (truthyStr w.endpointVar && truthyStr w.modelVar) with
    | false =>
      have hcond : (!(truthyStr w.endpointVar) || !(truthyStr w.modelVar)) = true := by
        revert henv
        cases truthyStr w.endpointVar <;> cases truthyStr w.modelVar <;> simp
      rw [run_config_fail w hcond]
      simp
    | true =>
      have hpair := henv
      rw [Bool.and_eq_true] at hpair
      obtain ⟨he, hm⟩ := hpair
      cases hcsv : w.csvExists with
      | false =>
        rw [run_csv_fail w he hm hcsv]
        simp
      | true =>
        rw [run_eq_pipeline w he hm hcsv]
        simp
  · intro henv hcsv
    have hpair := henv
    rw [Bool.and_eq_true] at hpair
    obtain ⟨he, hm⟩ := hpair
    refine ⟨?_, ?_, cleanupCount_run_preflight w he hm hcsv, ?_, ?_⟩
    · rw [run_eq_pipeline w he hm hcsv]
    · rw [run_eq_pipeline w he hm hcsv]
      have hb := countP_banner_zero (fun e => isExitEv e) (fun _ => rfl)
        w.endpointVar w.modelVar
      have htr := countP_tryBlock_ok w hcsv (fun e => isExitEv e) (fun _ => rfl)
        rfl rfl rfl rfl (fun _ => rfl) rfl (fun _ => rfl) (fun _ _ _ => rfl)
      have hfin := countP_finally_zero (fun e => isExitEv e) rfl (fun _ => rfl)
        (fun _ _ => rfl) (fun _ => rfl) w (tryBlock w).projectSet
        (tryBlock w).client (tryBlock w).agent (tryBlock w).conv
      cases herr : (tryBlock w).err with
      | none => simp [List.countP_append, hb, htr, hfin]
      | some m =>
        have hcatch := countP_catch_zero (fun e => isExitEv e) (fun _ => rfl)
          (fun _ => rfl) m
        simp [List.countP_append, hb, htr, hfin, hcatch]
    · rw [run_eq_pipeline w he hm hcsv]
      have hb := countP_banner_zero (fun e => isErrorOccurredEv e) (fun _ => rfl)
        w.endpointVar w.modelVar
      have htr := countP_tryBlock_ok w hcsv (fun e => isErrorOccurredEv e)
        (fun _ => rfl) rfl rfl rfl rfl (fun _ => rfl) rfl (fun _ => rfl)
        (fun _ _ _ => rfl)
      have hfin := countP_finally_zero (fun e => isErrorOccurredEv e) rfl
        (fun _ => rfl) (fun _ _ => rfl) (fun _ => rfl) w (tryBlock w).projectSet
        (tryBlock w).client (tryBlock w).agent (tryBlock w).conv
      cases herr : (tryBlock w).err with
      | none =>
        simp [errorOccurredCount, List.countP_append, hb, htr, hfin]
      | some m =>
        have hcatch : List.countP (fun e => isErrorOccurredEv e) (catchBlock m) = 1 :=
          errorOccurredCount_catch m
        simp [errorOccurredCount, List.countP_append, hb, htr, hfin, hcatch]
    · intro m herr
      rw [run_eq_pipeline w he hm hcsv, herr]
      exact List.mem_append_left _
        (List.mem_append_right _ (List.mem_cons_self _ _))

/-- Witness for C3 at a concrete world where every remote call succeeds. -/
theorem exit_code_semantics_witness :
    (truthyStr wOk.endpointVar && truthyStr wOk.modelVar) = true
    ∧ wOk.csvExists = true
    ∧ (run wOk).2 = 0 ∧ cleanupCount (run wOk).1 = 1 :=
  ⟨by decide, rfl, ((exit_code_semantics wOk).2 (by decide) rfl).1,
   ((exit_code_semantics wOk).2 (by decide) rfl).2.2.1⟩

/-- Claim C5: with both required environment variables absent, the process
exits with code 1 after printing the configuration error, and the trace
contains no remote call and no client construction: the check runs at
module load, before `main`. -/
theorem missing_env_vars_exit_before_network (w : World)
    (he : w.endpointVar = none) (hm : w.modelVar = none) :
    run w = (configFailEvents, 1)
    ∧ Event.err "Error: Environment variables not set properly!" ∈ (run w).1
    ∧ Event.exitCall 1 ∈ (run w).1
    ∧ (∀ e ∈ (run w).1, isNetworkCall e = false ∧ isClientInit e = false) := by
  have hrun : run w = (configFailEvents, 1) := by
    apply run_config_fail
    rw [he, hm]
    rfl
  refine ⟨hrun, ?_, ?_, ?_⟩
  · rw [hrun]
    simp [configFailEvents]
  · rw [hrun]
    simp [configFailEvents]
  · intro e hmem
    rw [hrun] at hmem
    simp [configFailEvents] at hmem
    rcases hmem with h | h | h <;> subst h <;> exact ⟨rfl, rfl⟩

/-- Witness for C5 at the concrete world with both variables absent. -/
theorem missing_env_vars_exit_before_network_witness :
    wNoEnv.endpointVar = none ∧ wNoEnv.modelVar = none
    ∧ run wNoEnv = (configFailEvents, 1) :=
  ⟨rfl, rfl, (missing_env_vars_exit_before_network wNoEnv rfl rfl).1⟩

/-- Claim C6: with the environment set but the CSV file absent, the process
exits with code 1 after printing the file-not-found error, and the trace
contains no client construction (no credential, no `AIProjectClient`) and
no remote call: the check on line 58 precedes client initialisation on
lines 72-73. -/
theorem missing_csv_exits_before_client_init (w : World)
    (he : truthyStr w.endpointVar = true) (hm : truthyStr w.modelVar = true)
    (hc : w.csvExists = false) :
    (run w).2 = 1
    ∧ Event.err "Error: File not found: ./sales_data.csv" ∈ (run w).1
    ∧ Event.exitCall 1 ∈ (run w).1
    ∧ (∀ e ∈ (run w).1, isNetworkCall e = false ∧ isClientInit e = false) := by
  have hrun := run_csv_fail w he hm hc
  refine ⟨by rw [hrun], ?_, ?_, ?_⟩
  · rw [hrun]
    exact List.mem_append_right _ (by simp [csvFailEvents])
  · rw [hrun]
    exact List.mem_append_right _ (by simp [csvFailEvents])
  · intro e hmem
    rw [hrun] at hmem
    rcases List.mem_append.mp hmem with h | h
    · obtain ⟨s, rfl⟩ := mem_banner e _ _ h
      exact ⟨rfl, rfl⟩
    · rcases mem_csvFail e h with h1 | h1 | h1 <;> subst h1 <;> exact ⟨rfl, rfl⟩

/-- Witness for C6 at the concrete world whose CSV file is absent. -/
theorem missing_csv_exits_before_client_init_witness :
    truthyStr wNoCsv.endpointVar = true ∧ wNoCsv.csvExists = false
    ∧ (run wNoCsv).2 = 1 ∧ Event.exitCall 1 ∈ (run wNoCsv).1 :=
  ⟨by decide, rfl,
   (missing_csv_exits_before_client_init wNoCsv (by decide) (by decide) rfl).1,
   (missing_csv_exits_before_client_init wNoCsv (by decide) (by decide) rfl).2.2.1⟩

/-- Claim C9: the pre-flight check `!A || !B` treats a variable set to the
empty string exactly like an absent one, and a single falsy variable
suffices: the guard fails precisely when at least one of the two variables
is absent or empty, and whenever it fails the process prints the
configuration error and exits with code 1. -/
theorem env_truthiness_semantics (w : World) :
    ((truthyStr w.endpointVar && truthyStr w.modelVar) = false
      ↔ (w.endpointVar = none ∨ w.endpointVar = some ""
         ∨ w.modelVar = none ∨ w.modelVar = some ""))
    ∧ ((truthyStr w.endpointVar && truthyStr w.modelVar) = false →
        run w = (configFailEvents, 1)) := by
  constructor
  · cases he : w.endpointVar <;> cases hm : w.modelVar <;>
      simp [truthyStr, Bool.and_eq_false_iff] <;> tauto
  · intro h
    apply run_config_fail
    revert h
    cases truthyStr w.endpointVar <;> cases truthyStr w.modelVar <;> simp

/-- Witness for C9 at a concrete world whose endpoint variable is the empty
string (and whose model variable is set): the guard fails and the process
exits with code 1. -/
theorem env_truthiness_semantics_witness :
    (truthyStr wEmptyEnv.endpointVar && truthyStr wEmptyEnv.modelVar) = false
    ∧ run wEmptyEnv = (configFailEvents, 1) :=
  ⟨by decide, (env_truthiness_semantics wEmptyEnv).2 (by decide)⟩

theorem mem_analysis_of_mem_item (r : Response) (items : List OutputItem)
    (hout : r.output = OutputVal.arr items) (it : OutputItem) (hit : it ∈ items)
    (s : String) (hs : s ∈ (reportItem it).1) : s ∈ (analysisBlock r).1 := by
  rw [analysisBlock_arr r items hout]
  apply List.mem_append_left
  rw [List.mem_flatten]
  exact ⟨(reportItem it).1, List.mem_map.mpr ⟨it, hit, rfl⟩, hs⟩

theorem mem_display_of_mem_analysis (r : Response) (s : String)
    (hs : s ∈ (analysisBlock r).1) : s ∈ (displayAndAnalyze r).1 := by
  rw [displayAndAnalyze_eq]
  exact List.mem_append_left _ (List.mem_append_right _ hs)

/-- Claim C4: for a successful response whose output array has an item
tagged `code_interpreter_call` with a populated (truthy) `code` field, the
reporter prints the confirmation line and the indented code fragment; for a
response whose output array has no item with that tag, it prints the
"not used" line. -/
theorem reporter_tool_invocation_lines (r : Response) (items : List OutputItem)
    (hout : r.output = OutputVal.arr items) :
    (∀ it ∈ items, it.type = some "code_interpreter_call" →
      ∀ c, it.code = some c → c ≠ "" →
        "\n✓ CODE INTERPRETER WAS USED!" ∈ (displayAndAnalyze r).1
        ∧ indentCode c ∈ (displayAndAnalyze r).1)
    ∧ ((∀ it ∈ items, ¬ it.type = some "code_interpreter_call") →
        "\nNo code_interpreter_call found in output." ∈ (displayAndAnalyze r).1) := by
  constructor
  · intro it hit hty c hcode hne
    have h1 : "\n✓ CODE INTERPRETER WAS USED!" ∈ (reportItem it).1 := by
      unfold reportItem
      simp [hty, hcode, truthyStr, hne]
    have h2 : indentCode c ∈ (reportItem it).1 := by
      unfold reportItem
      simp [hty, hcode, truthyStr, hne]
    exact ⟨mem_display_of_mem_analysis r _
             (mem_analysis_of_mem_item r items hout it hit _ h1),
           mem_display_of_mem_analysis r _
             (mem_analysis_of_mem_item r items hout it hit _ h2)⟩
  · intro hall
    have hany : (items.any fun it =>
        decide (it.type = some "code_interpreter_call")) = false := by
      rw [List.any_eq_false]
      intro it hit
      simp [hall it hit]
    apply mem_display_of_mem_analysis
    rw [analysisBlock_arr r items hout]
    simp [hany]

/-- Witness for C4 at the fully-populated sample response. -/
theorem reporter_tool_invocation_lines_witness :
    sampleResponse.output = OutputVal.arr [sampleItem]
    ∧ "\n✓ CODE INTERPRETER WAS USED!" ∈ (displayAndAnalyze sampleResponse).1
    ∧ indentCode "import pandas as pd\nprint(1)" ∈ (displayAndAnalyze sampleResponse).1 :=
  ⟨rfl,
   ((reporter_tool_invocation_lines sampleResponse [sampleItem] rfl).1
     sampleItem (List.mem_singleton.mpr rfl) rfl
     "import pandas as pd\nprint(1)" rfl (by decide)).1,
   ((reporter_tool_invocation_lines sampleResponse [sampleItem] rfl).1
     sampleItem (List.mem_singleton.mpr rfl) rfl
     "import pandas as pd\nprint(1)" rfl (by decide)).2⟩

/-- Claim C8: the response reporter has no error conditions — for every
response, including one with all fields absent, it completes without
raising (the only member access that could throw, `item.code.split`, is
truthiness-guarded); a missing `container_id` or `id` on a tool-call item
is rendered as "N/A"; and the reporter's result has no effect on the
program state left by the `try` block — two worlds differing only in the
(successful) response have identical post-`try` states. -/
theorem reporter_total_and_stateless :
    (∀ r : Response, (displayAndAnalyze r).2 = none)
    ∧ (∀ it : OutputItem, it.type = some "code_interpreter_call" →
        (truthyStr it.container_id = false →
          "  Container ID: N/A" ∈ (reportItem it).1)
        ∧ (truthyStr it.id = false →
          "  Code Interpreter ID: N/A" ∈ (reportItem it).1))
    ∧ (∀ (w : World) (r1 r2 : Response),
        stateOf (tryBlock { w with createResponseResult := Except.ok r1 })
          = stateOf (tryBlock { w with createResponseResult := Except.ok r2 })) := by
  refine ⟨displayAndAnalyze_snd, ?_, ?_⟩
  · intro it hty
    constructor
    · intro hcid
      have hN : orNA it.container_id = "N/A" := by
        simp [orNA, hcid]
      have hmem : ("  Container ID: " ++ orNA it.container_id) ∈ (reportItem it).1 := by
        unfold reportItem
        cases hcode : it.code with
        | none => simp [hty, truthyStr, hcode]
        | some c => by_cases hcc : c = "" <;> simp [hty, truthyStr, hcode, hcc]
      have heq : "  Container ID: " ++ orNA it.container_id
          = "  Container ID: N/A" := by
        rw [hN]
        decide
      exact heq ▸ hmem
    · intro hid
      have hN : orNA it.id = "N/A" := by
        simp [orNA, hid]
      have hmem : ("  Code Interpreter ID: " ++ orNA it.id) ∈ (reportItem it).1 := by
        unfold reportItem
        cases hcode : it.code with
        | none => simp [hty, truthyStr, hcode]
        | some c => by_cases hcc : c = "" <;> simp [hty, truthyStr, hcode, hcc]
      have heq : "  Code Interpreter ID: " ++ orNA it.id
          = "  Code Interpreter ID: N/A" := by
        rw [hN]
        decide
      exact heq ▸ hmem
  · intro w r1 r2
    unfold stateOf tryBlock
    cases w.csvExists <;>
      cases w.getOpenAIClientResult <;>
        cases w.createAgentResult <;>
          cases w.createConversationResult <;>
            simp [displayAndAnalyze_snd]

/-- Witness for C8: the reporter completes on the all-absent-fields
response, and renders "N/A" for the bare item's missing identifiers. -/
theorem reporter_total_and_stateless_witness :
    (displayAndAnalyze rBare).2 = none
    ∧ "  Container ID: N/A" ∈ (reportItem bareItem).1
    ∧ "  Code Interpreter ID: N/A" ∈ (reportItem bareItem).1 :=
  ⟨reporter_total_and_stateless.1 rBare,
   (reporter_total_and_stateless.2.1 bareItem rfl).1 rfl,
   (reporter_total_and_stateless.2.1 bareItem rfl).2 rfl⟩

/-- Claim C10, counterexample: for a response whose `output` field is the
non-array string "ab", the analysis block is skipped (no confirmation
line, no "not used" line) — but the summary line prints
` - Output items: 2` (the string's `length` survives `output?.length || 0`),
not ` - Output items: 0` as the claim states. -/
theorem summary_counts_string_output :
    analysisBlock rStr = ([], none)
    ∧ " - Output items: 2" ∈ (displayAndAnalyze rStr).1
    ∧ " - Output items: 0" ∉ (displayAndAnalyze rStr).1 := by
  refine ⟨rfl, ?_, ?_⟩ <;> decide

/-- Claim C10 (amended): when `response.output` is absent or not an array,
the per-item analysis block is skipped entirely — it contributes no output
lines and raises nothing, so neither the confirmation line nor the
"not used" line is printed; the summary line reports `output?.length || 0`,
which is 0 whenever the output value has no length property (absent, null,
number, plain object) but equals the value's length for a non-array value
carrying one (e.g. a string). -/
theorem non_array_output_skips_analysis (r : Response)
    (h : ∀ items, r.output ≠ OutputVal.arr items) :
    analysisBlock r = ([], none)
    ∧ (" - Output items: " ++ toString (jsLength r.output)) ∈ (displayAndAnalyze r).1
    ∧ ((∀ s, r.output ≠ OutputVal.str s) → jsLength r.output = 0) := by
  refine ⟨analysisBlock_not_arr r h, ?_, ?_⟩
  · rw [displayAndAnalyze_eq]
    simp
  · intro hs
    cases hv : r.output <;> first
      | rfl
      | exact absurd hv (h _)
      | exact absurd hv (hs _)

/-- Witness for C10 (amended) at the string-output response. -/
theorem non_array_output_skips_analysis_witness :
    (∀ items, rStr.output ≠ OutputVal.arr items)
    ∧ analysisBlock rStr = ([], none)
    ∧ (" - Output items: " ++ toString (jsLength rStr.output))
        ∈ (displayAndAnalyze rStr).1 :=
  ⟨fun _ h => OutputVal.noConfusion h,
   (non_array_output_skips_analysis rStr (fun _ h => OutputVal.noConfusion h)).1,
   (non_array_output_skips_analysis rStr (fun _ h => OutputVal.noConfusion h)).2.1⟩

theorem deleteConvCount_finally_le (w : World) (ps cl : Bool)
    (ag : Option Agent) (cv : Option Conversation) :
    (finallyBlock w ps cl ag cv).countP (fun e => isDeleteConvEv e) ≤ 1 := by
  unfold finallyBlock
  cases cv <;> cases cl <;> cases ag <;> cases ps <;>
    cases w.deleteConversationResult <;> cases w.deleteAgentResult <;>
      simp [List.countP_append, List.countP_cons, isDeleteConvEv]

theorem deleteAgentCount_finally_le (w : World) (ps cl : Bool)
    (ag : Option Agent) (cv : Option Conversation) :
    (finallyBlock w ps cl ag cv).countP (fun e => isDeleteAgentEv e) ≤ 1 := by
  unfold finallyBlock
  cases cv <;> cases cl <;> cases ag <;> cases ps <;>
    cases w.deleteConversationResult <;> cases w.deleteAgentResult <;>
      simp [List.countP_append, List.countP_cons, isDeleteAgentEv]

theorem dispatch_in_try (w : World) (cid an : Option String) (inp : String)
    (he : truthyStr w.endpointVar = true) (hm : truthyStr w.modelVar = true)
    (hcsv : w.csvExists = true)
    (hmem : Event.dispatch cid an inp ∈ (run w).1) :
    Event.dispatch cid an inp ∈ (tryBlock w).events := by
  rw [run_eq_pipeline w he hm hcsv] at hmem
  rcases List.mem_append.mp hmem with h | hfin
  · rcases List.mem_append.mp h with h2 | hce
    · rcases List.mem_append.mp h2 with hb | htr
      · obtain ⟨s, hs⟩ := mem_banner _ _ _ hb
        exact absurd hs (by simp)
      · exact htr
    · cases herr : (tryBlock w).err with
      | none =>
        rw [herr] at hce
        simp at hce
      | some m =>
        rw [herr] at hce
        rcases mem_catchBlock _ _ hce with h4 | ⟨s, h4⟩ <;>
          exact absurd h4 (by simp)
  · rcases mem_finallyBlock _ _ _ _ _ _ hfin with h4 | ⟨i, h4⟩ | ⟨n, v, h4⟩ | ⟨s, h4⟩ <;>
      exact absurd h4 (by simp)

theorem dispatch_args (w : World) (cid an : Option String) (inp : String)
    (hcsv : w.csvExists = true)
    (htr : Event.dispatch cid an inp ∈ (tryBlock w).events) :
    ∃ a c, w.getOpenAIClientResult = Except.ok ()
      ∧ w.createAgentResult = Except.ok a
      ∧ w.createConversationResult = Except.ok c
      ∧ cid = c.id ∧ an = a.name ∧ inp = userPrompt w.csvContent := by
  revert htr
  unfold tryBlock
  rw [hcsv]
  cases hg : w.getOpenAIClientResult with
  | error m =>
    intro htr
    simp [phase1Events] at htr
  | ok u =>
    cases ha : w.createAgentResult with
    | error m =>
      intro htr
      simp [phase1Events, phase2Events] at htr
    | ok a =>
      cases hv : w.createConversationResult with
      | error m =>
        intro htr
        simp [phase1Events, phase2Events, phase3Events] at htr
      | ok c =>
        cases hr : w.createResponseResult with
        | error m =>
          intro htr
          simp [phase1Events, phase2Events, phase3Events, phase4Events] at htr
          obtain ⟨h1, h2, h3⟩ := htr
          exact ⟨a, c, by cases u; rfl, rfl, rfl, h1, h2, h3⟩
        | ok r =>
          intro htr
          simp [phase1Events, phase2Events, phase3Events, phase4Events] at htr
          obtain ⟨h1, h2, h3⟩ := htr
          exact ⟨a, c, by cases u; rfl, rfl, rfl, h1, h2, h3⟩

theorem created_before_dispatch (w : World) (a : Agent) (c : Conversation)
    (he : truthyStr w.endpointVar = true) (hm : truthyStr w.modelVar = true)
    (hcsv : w.csvExists = true)
    (hg : w.getOpenAIClientResult = Except.ok ())
    (ha : w.createAgentResult = Except.ok a)
    (hv : w.createConversationResult = Except.ok c) :
    Event.agentCreated a ∈ beforeFirstDispatch (run w).1
    ∧ Event.conversationCreated c ∈ beforeFirstDispatch (run w).1 := by
  rw [run_eq_pipeline w he hm hcsv]
  cases hr : w.createResponseResult <;>
    simp [tryBlock, hcsv, hg, ha, hv, hr, beforeFirstDispatch,
          bannerEvents, phase1Events, phase2Events, phase3Events, phase4Events,
          List.takeWhile_cons, isDispatchEv]

/-- Claim C7: handle lifecycle — every `responses.create` dispatch in a
trace references exactly the handles returned by the successful creation
calls, and both the agent-created and the conversation-created events occur
strictly before the dispatch in the trace; each handle is deleted at most
once per run. -/
theorem handle_lifecycle (w : World) :
    (∀ cid an inp, Event.dispatch cid an inp ∈ (run w).1 →
      ∃ a c, w.createAgentResult = Except.ok a
        ∧ w.createConversationResult = Except.ok c
        ∧ cid = c.id ∧ an = a.name
        ∧ Event.agentCreated a ∈ beforeFirstDispatch (run w).1
        ∧ Event.conversationCreated c ∈ beforeFirstDispatch (run w).1)
    ∧ (run w).1.countP (fun e => isDeleteConvEv e) ≤ 1
    ∧ (run w).1.countP (fun e => isDeleteAgentEv e) ≤ 1 := by
  by_cases henv : (!(truthyStr w.endpointVar) || !(truthyStr w.modelVar)) = true
  · rw [run_config_fail w henv]
    refine ⟨?_, ?_, ?_⟩
    · intro cid an inp hmem
      simp [configFailEvents] at hmem
    · decide
    · decide
  · have hab : truthyStr w.endpointVar = true ∧ truthyStr w.modelVar = true := by
      revert henv
      cases truthyStr w.endpointVar <;> cases truthyStr w.modelVar <;> simp
    obtain ⟨he, hm⟩ := hab
    cases hcsv : w.csvExists with
    | false =>
      rw [run_csv_fail w he hm hcsv]
      refine ⟨?_, ?_, ?_⟩
      · intro cid an inp hmem
        rcases List.mem_append.mp hmem with h | h
        · obtain ⟨s, hs⟩ := mem_banner _ _ _ h
          exact absurd hs (by simp)
        · rcases mem_csvFail _ h with h1 | h1 | h1 <;> exact absurd h1 (by simp)
      · have hb := countP_banner_zero (fun e => isDeleteConvEv e) (fun _ => rfl)
          w.endpointVar w.modelVar
        have hcf : csvFailEvents.countP (fun e => isDeleteConvEv e) = 0 := rfl
        simp [List.countP_append, hb, hcf]
      · have hb := countP_banner_zero (fun e => isDeleteAgentEv e) (fun _ => rfl)
          w.endpointVar w.modelVar
        have hcf : csvFailEvents.countP (fun e => isDeleteAgentEv e) = 0 := rfl
        simp [List.countP_append, hb, hcf]
    | true =>
      refine ⟨?_, ?_, ?_⟩
      · intro cid an inp hmem
        have htry := dispatch_in_try w cid an inp he hm hcsv hmem
        obtain ⟨a, c, hg, ha, hv, hcid, han, hinp⟩ :=
          dispatch_args w cid an inp hcsv htry
        obtain ⟨h1, h2⟩ := created_before_dispatch w a c he hm hcsv hg ha hv
        exact ⟨a, c, ha, hv, hcid, han, h1, h2⟩
      · rw [run_eq_pipeline w he hm hcsv]
        have hb := countP_banner_zero (fun e => isDeleteConvEv e) (fun _ => rfl)
          w.endpointVar w.modelVar
        have htr := countP_tryBlock_ok w hcsv (fun e => isDeleteConvEv e)
          (fun _ => rfl) rfl rfl rfl rfl (fun _ => rfl) rfl (fun _ => rfl)
          (fun _ _ _ => rfl)
        have hfin := deleteConvCount_finally_le w (tryBlock w).projectSet
          (tryBlock w).client (tryBlock w).agent (tryBlock w).conv
        cases herr : (tryBlock w).err with
        | none => simpa [List.countP_append, hb, htr] using hfin
        | some m =>
          have hcatch := countP_catch_zero (fun e => isDeleteConvEv e)
            (fun _ => rfl) (fun _ => rfl) m
          simpa [List.countP_append, hb, htr, hcatch] using hfin
      · rw [run_eq_pipeline w he hm hcsv]
        have hb := countP_banner_zero (fun e => isDeleteAgentEv e) (fun _ => rfl)
          w.endpointVar w.modelVar
        have htr := countP_tryBlock_ok w hcsv (fun e => isDeleteAgentEv e)
          (fun _ => rfl) rfl rfl rfl rfl (fun _ => rfl) rfl (fun _ => rfl)
          (fun _ _ _ => rfl)
        have hfin := deleteAgentCount_finally_le w (tryBlock w).projectSet
          (tryBlock w).client (tryBlock w).agent (tryBlock w).conv
        cases herr : (tryBlock w).err with
        | none => simpa [List.countP_append, hb, htr] using hfin
        | some m =>
          have hcatch := countP_catch_zero (fun e => isDeleteAgentEv e)
            (fun _ => rfl) (fun _ => rfl) m
          simpa [List.countP_append, hb, htr, hcatch] using hfin

set_option maxRecDepth 8192 in
/-- Witness for C7 at the all-success world: the dispatch event is in the
trace, the agent-created event precedes it, and the deletion counts are at
most one. -/
theorem handle_lifecycle_witness :
    Event.dispatch sampleConversation.id sampleAgent.name
        (userPrompt wOk.csvContent) ∈ (run wOk).1
    ∧ Event.agentCreated sampleAgent ∈ beforeFirstDispatch (run wOk).1
    ∧ (run wOk).1.countP (fun e => isDeleteConvEv e) ≤ 1 := by
  have hd : Event.dispatch sampleConversation.id sampleAgent.name
      (userPrompt wOk.csvContent) ∈ (run wOk).1 := by decide
  refine ⟨hd, ?_, (handle_lifecycle wOk).2.1⟩
  obtain ⟨a, c, ha, hv, hcid, han, h1, h2⟩ := (handle_lifecycle wOk).1 _ _ _ hd
  have hae : Except.ok (ε := String) sampleAgent = Except.ok a := ha
  injection hae with h
  exact h ▸ h1

end DemoV2
